import Mathlib

/-!
Verification of the OAuth2 token lifecycle manager of o365-mail-cli.

The development shallowly embeds the authentication core of the
repository: the token cache (`internal/auth/token.go`), the OAuth client
operations (`internal/auth/oauth.go`) and the XOAUTH2 SASL payload
builders (`internal/mail/imap.go`, `internal/mail/smtp.go`).

Modelling conventions:
  * The opaque serialized cache blob is modelled by the list of accounts
    it encodes; the nil byte slice corresponds to the empty list.
  * File-system effects (MkdirAll, WriteFile, Remove) are parameterized
    by outcome oracles of type `Option String`: `none` means the call
    succeeds, `some e` means it fails with error text `e`.  The model
    threads an explicit `SysState` holding the in-memory blob, the cache
    directory and the backing file.
  * Times are integral seconds (`Int`).
  * The external MSAL library is kept behind the narrow interface the
    repository uses: `Accounts`, `AcquireTokenSilent`, `RemoveAccount`,
    `AcquireTokenByDeviceCode`.  Its write-through into the token cache
    happens only via the `Export` hook of `token.go`, which is embedded
    as `exportBlob` (sets the in-memory blob, then `saveToFile`).
-/

namespace O365

/-- An MSAL account, identified by its preferred username
(`account.PreferredUsername` in `oauth.go`). -/
structure Account where
  preferredUsername : String
deriving DecidableEq, Repr

/-- The state touched by the token cache (`token.go`):
`accounts` is the MSAL in-memory account list, `cacheData` the in-memory
cache blob (`TokenCache.data`, modelled by the accounts it encodes),
`dir` the cache directory (permission bits when it exists),
`file` the backing `token.json` file (content and permission bits when it
exists). -/
structure SysState where
  accounts  : List Account
  cacheData : List Account
  dir       : Option Nat
  file      : Option (List Account × Nat)
deriving DecidableEq, Repr

/-- `dirPermission = 0700` in `token.go`. -/
def dirPermission : Nat := 448

/-- `filePermission = 0600` in `token.go`. -/
def filePermission : Nat := 384

/-- `TokenCache.saveToFile` (`token.go` lines 88-102): create the cache
directory if missing (mode 0700; an existing directory keeps its bits),
then write the blob to `token.json` with mode 0600 (an existing file is
truncated and rewritten; its permission bits are kept, as `os.WriteFile`
applies the mode only on creation).  `mkdirErr`/`writeErr` are the
outcome oracles of the two system calls. -/
def saveToFile (mkdirErr writeErr : Option String) (s : SysState) :
    SysState × Option String :=
  match mkdirErr with
  | some e => (s, some ("failed to create cache directory: " ++ e))
  | none =>
    let s1 : SysState := { s with dir := some (s.dir.getD dirPermission) }
    match writeErr with
    | some e => (s1, some ("failed to write token file: " ++ e))
    | none =>
      ({ s1 with file := some (s1.cacheData, (s1.file.map Prod.snd).getD filePermission) },
       none)

/-- `TokenCache.Save` (`token.go` lines 104-109): takes the lock and
calls `saveToFile`; in the single-threaded embedding it is `saveToFile`. -/
def save (mkdirErr writeErr : Option String) (s : SysState) :
    SysState × Option String :=
  saveToFile mkdirErr writeErr s

/-- `TokenCache.Export` (`token.go` lines 56-67): store the marshalled
blob into `data`, then `saveToFile`.  This is the only path by which the
external library writes through to the store. -/
def exportBlob (blob : List Account) (mkdirErr writeErr : Option String)
    (s : SysState) : SysState × Option String :=
  saveToFile mkdirErr writeErr { s with cacheData := blob }

/-- `TokenCache.Clear` (`token.go` lines 111-124): set `data` to nil
first, then remove `token.json`; a missing file is not an error.
`removeErr` is the outcome oracle of `os.Remove` when the file exists. -/
def clear (removeErr : Option String) (s : SysState) :
    SysState × Option String :=
  match s.file, removeErr with
  | none, _ => ({ s with cacheData := [] }, none)
  | some _, none => ({ s with cacheData := [], file := none }, none)
  | some _, some e =>
    ({ s with cacheData := [] },
     some ("failed to remove token file: " ++ e))

/-- `TokenCache.HasToken` (`token.go` lines 131-136): `len(t.data) > 0`. -/
def hasToken (s : SysState) : Bool :=
  !s.cacheData.isEmpty

/-- `OAuthClient.ListAccounts` (`oauth.go` lines 103-114): the preferred
usernames of the cached accounts; `accErr` is the outcome oracle of
`app.Accounts`. -/
def listAccounts (accErr : Option String) (s : SysState) :
    Except String (List String) :=
  match accErr with
  | some e => .error ("failed to get accounts: " ++ e)
  | none => .ok (s.accounts.map Account.preferredUsername)

/-- `app.RemoveAccount` as used by `Logout`/`LogoutAll`: the account is
removed from the MSAL in-memory list and the new blob is written through
the cache `Export` hook (`token.go` lines 56-67). -/
def removeAccount (a : Account) (mkdirErr writeErr : Option String)
    (s : SysState) : SysState × Option String :=
  exportBlob (s.accounts.erase a) mkdirErr writeErr
    { s with accounts := s.accounts.erase a }

/-- Error text of `GetAccessToken` when the account list is unavailable
or empty (`oauth.go` line 99). -/
def noValidTokenMsg : String :=
  "no valid token found, please run 'auth login' first"

/-- Error text of `GetAccessToken` when no cached account matches
(`oauth.go` line 96). -/
def noTokenMsg (email : String) : String :=
  "no token found for " ++ email ++ ", please run 'auth login' first"

/-- Error text of `GetAccessToken` when silent acquisition fails
(`oauth.go` line 93); the underlying cause is preserved verbatim. -/
def refreshFailedMsg (email cause : String) : String :=
  "token refresh failed for " ++ email ++ ": " ++ cause

/-- `OAuthClient.GetAccessToken` (`oauth.go` lines 79-100).
`accountsRes` is the result of `app.Accounts`; `silent` gives, for each
account, the result of `app.AcquireTokenSilent` (access token or error).
The loop returns at the first account whose preferred username matches,
so a lookup is `List.find?`.  The function contains no interactive flow:
its result is fully determined by the cache lookup and the single silent
attempt. -/
def getAccessToken (accountsRes : Except String (List Account))
    (silent : Account → Except String String) (email : String) :
    Except String String :=
  match accountsRes with
  | .ok accounts =>
    if accounts.isEmpty then .error noValidTokenMsg
    else
      match accounts.find? (fun a => a.preferredUsername == email) with
      | some a =>
        match silent a with
        | .ok tok => .ok tok
        | .error e => .error (refreshFailedMsg email e)
      | none => .error (noTokenMsg email)
  | .error _ => .error noValidTokenMsg

/-- `OAuthClient.Logout` (`oauth.go` lines 173-190): find the first
account with matching preferred username; if found, `RemoveAccount` and
then `tokenCache.Save()`; otherwise report `account <email> not found`. -/
def logout (accErr mkdirErr writeErr : Option String) (email : String)
    (s : SysState) : SysState × Option String :=
  match accErr with
  | some e => (s, some ("failed to get accounts: " ++ e))
  | none =>
    match s.accounts.find? (fun a => a.preferredUsername == email) with
    | some a =>
      match removeAccount a mkdirErr writeErr s with
      | (s1, some e) => (s1, some ("failed to remove account: " ++ e))
      | (s1, none) => save mkdirErr writeErr s1
    | none => (s, some ("account " ++ email ++ " not found"))

/-- The removal loop of `LogoutAll` (`oauth.go` lines 199-203) over the
snapshot of the account list: remove each account, stopping at the first
failure. -/
def removeAll (mkdirErr writeErr : Option String) :
    List Account → SysState → SysState × Option String
  | [], s => (s, none)
  | a :: rest, s =>
    match removeAccount a mkdirErr writeErr s with
    | (s1, some e) => (s1, some ("failed to remove account: " ++ e))
    | (s1, none) => removeAll mkdirErr writeErr rest s1

/-- `OAuthClient.LogoutAll` (`oauth.go` lines 193-206): remove every
account, then `tokenCache.Clear()`. -/
def logoutAll (accErr mkdirErr writeErr removeErr : Option String)
    (s : SysState) : SysState × Option String :=
  match accErr with
  | some e => (s, some ("failed to get accounts: " ++ e))
  | none =>
    match removeAll mkdirErr writeErr s.accounts s with
    | (s1, some e) => (s1, some e)
    | (s1, none) => clear removeErr s1

/-- `AuthStatus` (`oauth.go` lines 278-283); `expiresAt` is integral
seconds, `0` standing for the zero `time.Time`. -/
structure AuthStatus where
  loggedIn     : Bool
  email        : String
  tokenExpired : Bool
  expiresAt    : Int
deriving DecidableEq, Repr

/-- Outcome of one `app.AcquireTokenSilent` call as observable through
the cache interface: it fails, serves the still-valid cached access
token without touching the cache, or refreshes — minting a new token and
writing the new blob through the `Export` hook. -/
inductive SilentOutcome where
  | fail (e : String)
  | cachedHit (tok : String) (username : String) (expiresOn : Int)
  | refreshed (tok : String) (username : String) (expiresOn : Int)
      (newBlob : List Account)
deriving DecidableEq, Repr

/-- Whether the silent outcome writes the cache through `Export`. -/
def SilentOutcome.writesCache : SilentOutcome → Bool
  | .refreshed _ _ _ _ => true
  | _ => false

/-- The `AuthStatus` that `GetStatus` builds from the silent outcome for
the probed account (`oauth.go` lines 222-239). -/
def statusOfOutcome (a : Account) : SilentOutcome → AuthStatus
  | .fail _ => ⟨true, a.preferredUsername, true, 0⟩
  | .cachedHit _ un exp => ⟨true, un, false, exp⟩
  | .refreshed _ un exp _ => ⟨true, un, false, exp⟩

/-- `OAuthClient.GetStatus` (`oauth.go` lines 209-244): probe the first
account matching the filter (an empty `email` matches every account, so
the first cached account is probed); the returned state is the state
after the silent call, which mutates the store only when the silent
outcome is a refresh (write-through via `Export`). -/
def getStatus (accErr : Option String) (sil : Account → SilentOutcome)
    (mkdirErr writeErr : Option String) (email : String) (s : SysState) :
    Except String AuthStatus × SysState :=
  match accErr with
  | some e => (.error e, s)
  | none =>
    if s.accounts.isEmpty then (.ok ⟨false, "", false, 0⟩, s)
    else
      match s.accounts.find?
          (fun a => email == "" || a.preferredUsername == email) with
      | some a =>
        match sil a with
        | .refreshed t un exp blob =>
          (.ok (statusOfOutcome a (.refreshed t un exp blob)),
           (exportBlob blob mkdirErr writeErr s).1)
        | o => (.ok (statusOfOutcome a o), s)
      | none => (.ok ⟨false, "", false, 0⟩, s)

/-- The token data of a successful `deviceCode.AuthenticationResult`. -/
structure TokenData where
  accessToken : String
  username    : String
  expiresOn   : Int
deriving DecidableEq, Repr

/-- `AuthResult` (`oauth.go` lines 165-170): zero values are the empty
string and time `0`; `error` is `none` for a success. -/
structure AuthResult where
  accessToken : String
  email       : String
  expiresAt   : Int
  error       : Option String
deriving DecidableEq, Repr

/-- Observable events of the background goroutine of
`StartDeviceCodeFlow`: a call to `tokenCache.Save()` with its outcome, a
send on the completion channel, and the deferred close of the channel. -/
inductive FlowEvent where
  | saveCall (ok : Bool)
  | send (r : AuthResult)
  | closeChan
deriving DecidableEq, Repr

/-- Whether a flow event is a send on the completion channel. -/
def FlowEvent.isSend : FlowEvent → Bool
  | .send _ => true
  | _ => false

/-- The background goroutine of `StartDeviceCodeFlow` (`oauth.go` lines
129-148), spawned only when the flow start succeeded and a completion
handle was returned.  `auth` is the result of
`deviceCode.AuthenticationResult`: on success it carries the token data
together with the blob the acquisition exported into the in-memory
cache.  The goroutine then calls `tokenCache.Save()`; on save failure a
failure result is sent instead of a success.  `defer close(resultChan)`
makes the channel close the last event on every path.  Returns the event
trace and the final store state. -/
def deviceFlowBody (auth : Except String (TokenData × List Account))
    (mkdirErr writeErr : Option String) (s : SysState) :
    List FlowEvent × SysState :=
  match auth with
  | .error e => ([.send ⟨"", "", 0, some e⟩, .closeChan], s)
  | .ok (td, blob) =>
    let s0 : SysState := { s with cacheData := blob }
    match save mkdirErr writeErr s0 with
    | (s1, some e) =>
      ([.saveCall false, .send ⟨"", "", 0, some ("failed to save token: " ++ e)⟩,
        .closeChan], s1)
    | (s1, none) =>
      ([.saveCall true,
        .send ⟨td.accessToken, td.username, td.expiresOn, none⟩,
        .closeChan], s1)

/-- The device-code data returned by the identity provider
(`deviceCode.Result` in `oauth.go`). -/
structure ProviderDeviceCode where
  userCode        : String
  verificationURL : String
  expiresOn       : Int
  message         : String
deriving DecidableEq, Repr

/-- `DeviceCodeResult` (`oauth.go` lines 42-47). -/
structure DeviceCodeResult where
  userCode        : String
  verificationURL : String
  expiresIn       : Int
  message         : String
deriving DecidableEq, Repr

/-- The `DeviceCodeResult` built by `StartDeviceCodeFlow` (`oauth.go`
lines 150-161): the provider URL, with the standard Microsoft device
login URL as fallback when it is empty; `ExpiresIn` is
`time.Until(ExpiresOn)` in seconds at current time `now`. -/
def startDeviceCodeDisplay (now : Int) (dc : ProviderDeviceCode) :
    DeviceCodeResult :=
  let url :=
    if dc.verificationURL = "" then "https://microsoft.com/devicelogin"
    else dc.verificationURL
  ⟨dc.userCode, url, dc.expiresOn - now, dc.message⟩

/-- `xoauth2Client.Start` of the IMAP backend (`imap.go` lines 35-39):
mechanism name and initial response. -/
def xoauth2ClientStart (email tok : String) : String × String :=
  ("XOAUTH2", "user=" ++ email ++ "\x01auth=Bearer " ++ tok ++ "\x01\x01")

/-- `xoauth2SMTPAuth.Start` of the SMTP backend (`smtp.go` lines
268-272): mechanism name and initial response. -/
def xoauth2SMTPAuthStart (email tok : String) : String × String :=
  ("XOAUTH2", "user=" ++ email ++ "\x01auth=Bearer " ++ tok ++ "\x01\x01")

/-- The bytes of a string, one entry per character code point; every
character of the payloads at issue is ASCII, where code points and bytes
coincide. -/
def strBytes (s : String) : List Nat :=
  s.data.map Char.toNat

/-- Modelled from the spec: `BuildMechanismPayload(account_identity,
access_token)` is the byte sequence
`user=<account_identity>\x01auth=Bearer <access_token>\x01\x01`
(control-character-delimited, no trailing byte after the final two
`0x01` delimiters). -/
def buildMechanismPayload (e t : String) : List Nat :=
  strBytes "user=" ++ strBytes e ++ [1] ++
    strBytes "auth=Bearer " ++ strBytes t ++ [1, 1]

/-! ## Helper lemmas -/

theorem saveToFile_accounts (mkdirErr writeErr : Option String) (s : SysState) :
    (saveToFile mkdirErr writeErr s).1.accounts = s.accounts := by
  cases mkdirErr <;> cases writeErr <;> rfl

theorem strBytes_append (a b : String) :
    strBytes (a ++ b) = strBytes a ++ strBytes b := by
  simp [strBytes, String.data_append]

/-! ## Claims -/

/-- C8.  Every call to Save creates the cache directory if missing with
owner-only permissions (0700), writes the blob file with
owner-read-write-only permissions (0600) — an existing file keeps its
bits, as `os.WriteFile` applies the mode only on creation — replaces any
prior file content entirely with the in-memory blob, and is idempotent:
a repeated Save leaves the store state unchanged. -/
theorem save_creates_and_overwrites (s : SysState) :
    ∃ s1 p d, save none none s = (s1, none) ∧
      s1.file = some (s.cacheData, p) ∧
      (s.file = none → p = filePermission) ∧
      s1.dir = some d ∧
      (s.dir = none → d = dirPermission) ∧
      s1.cacheData = s.cacheData ∧ s1.accounts = s.accounts ∧
      save none none s1 = (s1, none) := by
  refine ⟨SysState.mk s.accounts s.cacheData (some (s.dir.getD dirPermission))
      (some (s.cacheData, (s.file.map Prod.snd).getD filePermission)),
    (s.file.map Prod.snd).getD filePermission, s.dir.getD dirPermission,
    rfl, rfl, ?_, rfl, ?_, rfl, rfl, rfl⟩
  · intro h; rw [h]; rfl
  · intro h; rw [h]; rfl

/-- C8 witness: a concrete fresh store (no directory, no file). -/
theorem save_creates_and_overwrites_witness :
    ∃ s1 p d,
      save none none (SysState.mk [] [Account.mk "a@b"] none none) = (s1, none) ∧
      s1.file = some ([Account.mk "a@b"], p) ∧
      (p = filePermission) ∧ s1.dir = some d ∧ (d = dirPermission) ∧
      s1.cacheData = [Account.mk "a@b"] ∧ s1.accounts = [] ∧
      save none none s1 = (s1, none) := by
  obtain ⟨s1, p, d, h1, h2, h3, h4, h5, h6, h7, h8⟩ :=
    save_creates_and_overwrites (SysState.mk [] [Account.mk "a@b"] none none)
  exact ⟨s1, p, d, h1, h2, h3 rfl, h4, h5 rfl, h6, h7, h8⟩

/-- C9.  Clear resets the in-memory blob to empty before attempting the
file removal, so after any Clear — including one that fails to remove
the file — HasToken is false and a subsequent Save writes an empty blob;
absence of the backing file is not an error for Clear. -/
theorem clear_resets_memory_first (removeErr : Option String) (s : SysState) :
    (clear removeErr s).1.cacheData = [] ∧
    hasToken (clear removeErr s).1 = false ∧
    (s.file = none → clear removeErr s = ({ s with cacheData := [] }, none)) ∧
    (∃ p, (save none none (clear removeErr s).1).1.file = some ([], p)) := by
  cases hf : s.file <;> cases removeErr <;>
    simp [clear, hasToken, save, saveToFile, hf]

/-- C9 witness: a concrete store whose file removal fails. -/
theorem clear_resets_memory_first_witness :
    (clear (some "EPERM")
      (SysState.mk [] [Account.mk "a@b"] (some 448)
        (some ([Account.mk "a@b"], 384)))).1.cacheData = [] ∧
    hasToken (clear (some "EPERM")
      (SysState.mk [] [Account.mk "a@b"] (some 448)
        (some ([Account.mk "a@b"], 384)))).1 = false ∧
    (∃ p, (save none none (clear (some "EPERM")
      (SysState.mk [] [Account.mk "a@b"] (some 448)
        (some ([Account.mk "a@b"], 384)))).1).1.file = some ([], p)) := by
  obtain ⟨h1, h2, _, h4⟩ :=
    clear_resets_memory_first (some "EPERM")
      (SysState.mk [] [Account.mk "a@b"] (some 448)
        (some ([Account.mk "a@b"], 384)))
  exact ⟨h1, h2, h4⟩

/-- C2.  The XOAUTH2 initial-response payload of both the IMAP and the
SMTP credential adapter is byte-exact
`user=<email>0x01auth=Bearer <token>0x01 0x01`, with no trailing byte
after the final two delimiters, matching the spec's
`BuildMechanismPayload`; at the concrete input of the spec it equals the
literal bytes of `user=alice@example.com\x01auth=Bearer tok123\x01\x01`. -/
theorem xoauth2_payload_exact (e t : String) :
    strBytes (xoauth2ClientStart e t).2 = buildMechanismPayload e t ∧
    strBytes (xoauth2SMTPAuthStart e t).2 = buildMechanismPayload e t ∧
    (xoauth2ClientStart e t).1 = "XOAUTH2" ∧
    (xoauth2SMTPAuthStart e t).1 = "XOAUTH2" ∧
    buildMechanismPayload "alice@example.com" "tok123" =
      strBytes "user=alice@example.com\x01auth=Bearer tok123\x01\x01" := by
  have h1 : strBytes "\x01auth=Bearer " = 1 :: strBytes "auth=Bearer " := by
    decide
  have h2 : strBytes "\x01\x01" = [1, 1] := by decide
  refine ⟨?_, ?_, rfl, rfl, by decide⟩ <;>
    simp [xoauth2ClientStart, xoauth2SMTPAuthStart, buildMechanismPayload,
      strBytes_append, h1, h2]

/-- C10.  The `DeviceCodeResult` returned by StartDeviceCodeFlow passes
the provider's user code and message through, derives ExpiresIn from the
provider's expiry instant and the current time, and uses the provider's
verification URL unless it is empty, in which case the fallback
`https://microsoft.com/devicelogin` is used. -/
theorem deviceCodeDisplay_fallback (now : Int) (dc : ProviderDeviceCode) :
    (startDeviceCodeDisplay now dc).userCode = dc.userCode ∧
    (startDeviceCodeDisplay now dc).message = dc.message ∧
    (startDeviceCodeDisplay now dc).expiresIn = dc.expiresOn - now ∧
    (dc.verificationURL = "" →
      (startDeviceCodeDisplay now dc).verificationURL =
        "https://microsoft.com/devicelogin") ∧
    (dc.verificationURL ≠ "" →
      (startDeviceCodeDisplay now dc).verificationURL =
        dc.verificationURL) := by
  refine ⟨rfl, rfl, rfl, ?_, ?_⟩ <;> intro h <;>
    simp [startDeviceCodeDisplay, h]

/-- C10 witness: both the fallback case (empty provider URL) and the
pass-through case at concrete inputs. -/
theorem deviceCodeDisplay_fallback_witness :
    (startDeviceCodeDisplay 0
      (ProviderDeviceCode.mk "CODE" "" 900 "msg")).verificationURL =
      "https://microsoft.com/devicelogin" ∧
    (startDeviceCodeDisplay 0
      (ProviderDeviceCode.mk "CODE" "https://u.example" 900 "msg")).verificationURL =
      "https://u.example" :=
  ⟨(deviceCodeDisplay_fallback 0
      (ProviderDeviceCode.mk "CODE" "" 900 "msg")).2.2.2.1 rfl,
   (deviceCodeDisplay_fallback 0
      (ProviderDeviceCode.mk "CODE" "https://u.example" 900 "msg")).2.2.2.2
     (by decide)⟩

/-- C3.  GetAccessToken never initiates an interactive flow: its result
is fully determined by the cached-account lookup and a single silent
acquisition.  If the account list is unavailable or empty, or no cached
account matches, it returns a not-logged-in error instructing the caller
to run login; if the first matching account's silent acquisition
succeeds it returns that access token; if it fails it returns a
refresh-failed error that carries the underlying cause verbatim, with
no retry and no device-code escalation. -/
theorem getAccessToken_never_interactive
    (accountsRes : Except String (List Account))
    (silent : Account → Except String String) (email : String) :
    (∀ e, accountsRes = .error e →
      getAccessToken accountsRes silent email = .error noValidTokenMsg) ∧
    (accountsRes = .ok [] →
      getAccessToken accountsRes silent email = .error noValidTokenMsg) ∧
    (∀ accounts, accountsRes = .ok accounts →
      (accounts ≠ [] →
        accounts.find? (fun a => a.preferredUsername == email) = none →
        getAccessToken accountsRes silent email = .error (noTokenMsg email)) ∧
      (∀ a, accounts.find? (fun a => a.preferredUsername == email) = some a →
        (∀ tok, silent a = .ok tok →
          getAccessToken accountsRes silent email = .ok tok) ∧
        (∀ e, silent a = .error e →
          getAccessToken accountsRes silent email =
            .error (refreshFailedMsg email e)))) := by
  refine ⟨?_, ?_, ?_⟩
  · intro e he; rw [he]; rfl
  · intro he; rw [he]; rfl
  · intro accounts ha
    subst ha
    constructor
    · intro hne hf
      cases accounts with
      | nil => exact absurd rfl hne
      | cons b t => simp [getAccessToken, hf]
    · intro a hf
      have hmem := List.mem_of_find?_eq_some hf
      have hne : accounts ≠ [] := List.ne_nil_of_mem hmem
      cases accounts with
      | nil => exact absurd rfl hne
      | cons b t =>
        constructor
        · intro tok hs; simp [getAccessToken, hf, hs]
        · intro e hs; simp [getAccessToken, hf, hs]

/-- C3 witness: concrete instances of all three outcomes. -/
theorem getAccessToken_never_interactive_witness :
    getAccessToken (.ok [Account.mk "x@y"]) (fun _ => .ok "abc") "x@y" =
      .ok "abc" ∧
    getAccessToken (.ok [Account.mk "x@y"]) (fun _ => .error "revoked") "x@y" =
      .error (refreshFailedMsg "x@y" "revoked") ∧
    getAccessToken (.ok [Account.mk "x@y"]) (fun _ => .ok "abc") "z@w" =
      .error (noTokenMsg "z@w") ∧
    getAccessToken (.ok []) (fun _ => .ok "abc") "x@y" =
      .error noValidTokenMsg :=
  ⟨(((getAccessToken_never_interactive (.ok [Account.mk "x@y"])
        (fun _ => .ok "abc") "x@y").2.2 [Account.mk "x@y"] rfl).2
      (Account.mk "x@y") (by decide)).1 "abc" rfl,
   (((getAccessToken_never_interactive (.ok [Account.mk "x@y"])
        (fun _ => .error "revoked") "x@y").2.2 [Account.mk "x@y"] rfl).2
      (Account.mk "x@y") (by decide)).2 "revoked" rfl,
   ((getAccessToken_never_interactive (.ok [Account.mk "x@y"])
        (fun _ => .ok "abc") "z@w").2.2 [Account.mk "x@y"] rfl).1
      (by decide) (by decide),
   (getAccessToken_never_interactive (.ok []) (fun _ => .ok "abc")
      "x@y").2.1 rfl⟩

theorem removeAll_ok_accounts (mkdirErr writeErr : Option String) :
    ∀ (l : List Account) (s s1 : SysState), s.accounts = l →
      removeAll mkdirErr writeErr l s = (s1, none) → s1.accounts = [] := by
  intro l
  induction l with
  | nil =>
    intro s s1 hacc h
    simp only [removeAll] at h
    cases h
    exact hacc
  | cons a rest ih =>
    intro s s1 hacc h
    simp only [removeAll, removeAccount, exportBlob] at h
    rcases hsf : saveToFile mkdirErr writeErr
        { s with accounts := s.accounts.erase a,
                 cacheData := s.accounts.erase a } with ⟨s2, e2⟩
    rw [hsf] at h
    cases e2 with
    | some e => simp at h
    | none =>
      have ha2 : s2.accounts = rest := by
        have hp := saveToFile_accounts mkdirErr writeErr
          { s with accounts := s.accounts.erase a,
                   cacheData := s.accounts.erase a }
        rw [hsf] at hp
        rw [hp]
        show s.accounts.erase a = rest
        rw [hacc]
        exact List.erase_cons_head a rest
      exact ih s2 s1 ha2 h

/-- C5.  After LogoutAll returns ok, every account has been removed, the
in-memory blob is empty, the backing file no longer exists, HasToken is
false and ListAccounts returns the empty set. -/
theorem logoutAll_clears_everything
    (accErr mkdirErr writeErr removeErr : Option String) (s s2 : SysState)
    (h : logoutAll accErr mkdirErr writeErr removeErr s = (s2, none)) :
    s2.accounts = [] ∧ s2.cacheData = [] ∧ s2.file = none ∧
    hasToken s2 = false ∧ listAccounts none s2 = .ok [] := by
  cases accErr with
  | some e => simp [logoutAll] at h
  | none =>
    simp only [logoutAll] at h
    rcases hra : removeAll mkdirErr writeErr s.accounts s with ⟨s1, e1⟩
    rw [hra] at h
    cases e1 with
    | some e => simp at h
    | none =>
      have h1 : s1.accounts = [] :=
        removeAll_ok_accounts mkdirErr writeErr s.accounts s s1 rfl hra
      cases hf : s1.file with
      | none =>
        simp only [clear, hf] at h
        cases h
        refine ⟨h1, rfl, rfl, ?_, ?_⟩
        · rfl
        · simp [listAccounts, h1]
      | some v =>
        cases removeErr with
        | some e => simp [clear, hf] at h
        | none =>
          simp only [clear, hf] at h
          cases h
          refine ⟨h1, rfl, rfl, ?_, ?_⟩
          · rfl
          · simp [listAccounts, h1]

/-- C5 witness: a concrete store with one cached account and a live
backing file; LogoutAll succeeds and leaves a fully cleared store. -/
theorem logoutAll_clears_everything_witness :
    (SysState.mk [] [] (some 448) none).accounts = [] ∧
    (SysState.mk [] [] (some 448) none).cacheData = [] ∧
    (SysState.mk [] [] (some 448) none).file = none ∧
    hasToken (SysState.mk [] [] (some 448) none) = false ∧
    listAccounts none (SysState.mk [] [] (some 448) none) = .ok [] :=
  logoutAll_clears_everything none none none none
    (SysState.mk [Account.mk "a@b"] [Account.mk "a@b"] none
      (some ([Account.mk "a@b"], 384)))
    (SysState.mk [] [] (some 448) none) (by decide)

theorem find?_username_erase_eq_none (email : String) :
    ∀ (l : List Account),
      (l.map Account.preferredUsername).Nodup →
      ∀ a, l.find? (fun x => x.preferredUsername == email) = some a →
      (l.erase a).find? (fun x => x.preferredUsername == email) = none := by
  intro l
  induction l with
  | nil => intro _ a h; simp at h
  | cons b t ih =>
    intro hnd a h
    rw [List.map_cons, List.nodup_cons] at hnd
    by_cases hb : (b.preferredUsername == email) = true
    · rw [List.find?_cons_of_pos t hb] at h
      cases h
      rw [List.erase_cons_head]
      rw [List.find?_eq_none]
      intro x hx hpx
      apply hnd.1
      rw [List.mem_map]
      refine ⟨x, hx, ?_⟩
      have h1 : x.preferredUsername = email := by
        exact eq_of_beq hpx
      have h2 : b.preferredUsername = email := by
        exact eq_of_beq hb
      rw [h1, h2]
    · rw [List.find?_cons_of_neg t hb] at h
      have hpa :=
        @List.find?_some Account (fun x => x.preferredUsername == email) a t h
      have hba : ¬(b == a) = true := by
        intro hc
        have hba2 : b = a := eq_of_beq hc
        subst hba2
        exact hb hpa
      rw [List.erase_cons_tail hba]
      rw [@List.find?_cons_of_neg Account (fun x => x.preferredUsername == email)
        b (t.erase a) hb]
      exact ih hnd.2 a h

/-- C6.  Logout of an account that is present removes it from the cache
and flushes the store (the backing file holds the new blob); Logout of
an absent account returns the non-fatal `account <email> not found`
error and leaves the store untouched.  After a successful Logout no
account with the same preferred username remains, so a subsequent
GetAccessToken for that account returns a not-logged-in error, never a
stale token.  (Accounts are identified by their preferred username, so
the cached usernames are assumed pairwise distinct.) -/
theorem logout_removes_and_flushes (s : SysState) (email : String)
    (silent : Account → Except String String)
    (hnd : (s.accounts.map Account.preferredUsername).Nodup) :
    (s.accounts.find? (fun a => a.preferredUsername == email) = none →
      logout none none none email s =
        (s, some ("account " ++ email ++ " not found"))) ∧
    (∀ a, s.accounts.find? (fun a => a.preferredUsername == email) = some a →
      ∃ s1 p, logout none none none email s = (s1, none) ∧
        s1.accounts = s.accounts.erase a ∧
        s1.cacheData = s.accounts.erase a ∧
        s1.file = some (s1.cacheData, p) ∧
        (getAccessToken (.ok s1.accounts) silent email =
           .error noValidTokenMsg ∨
         getAccessToken (.ok s1.accounts) silent email =
           .error (noTokenMsg email))) := by
  constructor
  · intro h
    simp [logout, h]
  · intro a ha
    refine ⟨SysState.mk (s.accounts.erase a) (s.accounts.erase a)
        (some (s.dir.getD dirPermission))
        (some (s.accounts.erase a, (s.file.map Prod.snd).getD filePermission)),
      (s.file.map Prod.snd).getD filePermission, ?_, rfl, rfl, rfl, ?_⟩
    · simp [logout, ha, removeAccount, exportBlob, save, saveToFile]
    · have hfe := find?_username_erase_eq_none email s.accounts hnd a ha
      cases he : s.accounts.erase a with
      | nil => left; rfl
      | cons b t =>
        right
        rw [he] at hfe
        simp [getAccessToken, hfe]

/-- C6 witness: a concrete one-account store; Logout succeeds, the store
is flushed, and GetAccessToken afterwards reports not-logged-in. -/
theorem logout_removes_and_flushes_witness :
    ∃ s1 p,
      logout none none none "x@y"
        (SysState.mk [Account.mk "x@y"] [Account.mk "x@y"] none none) =
        (s1, none) ∧
      s1.accounts =
        (SysState.mk [Account.mk "x@y"] [Account.mk "x@y"] none
          none).accounts.erase (Account.mk "x@y") ∧
      s1.cacheData =
        (SysState.mk [Account.mk "x@y"] [Account.mk "x@y"] none
          none).accounts.erase (Account.mk "x@y") ∧
      s1.file = some (s1.cacheData, p) ∧
      (getAccessToken (.ok s1.accounts) (fun _ => .error "gone") "x@y" =
         .error noValidTokenMsg ∨
       getAccessToken (.ok s1.accounts) (fun _ => .error "gone") "x@y" =
         .error (noTokenMsg "x@y")) :=
  (logout_removes_and_flushes
    (SysState.mk [Account.mk "x@y"] [Account.mk "x@y"] none none) "x@y"
    (fun _ => .error "gone") (by decide)).2 (Account.mk "x@y") (by decide)

/-- C1.  In the background completion of StartDeviceCodeFlow, a success
AuthResult is delivered only after `tokenCache.Save()` has returned
without error: on every trace that sends a success, the save call
strictly precedes the send, both save oracles succeeded, and the final
store state has the acquired blob both in memory and in the backing
file.  Conversely, when the flush fails, every result sent on the
channel is a failure, never a success. -/
theorem deviceFlow_persist_before_success
    (auth : Except String (TokenData × List Account))
    (mkdirErr writeErr : Option String) (s : SysState) (r : AuthResult)
    (hmem : FlowEvent.send r ∈ (deviceFlowBody auth mkdirErr writeErr s).1) :
    (r.error = none →
      ∃ td blob p, auth = .ok (td, blob) ∧
        mkdirErr = none ∧ writeErr = none ∧
        (deviceFlowBody auth mkdirErr writeErr s).2.cacheData = blob ∧
        (deviceFlowBody auth mkdirErr writeErr s).2.file = some (blob, p) ∧
        (deviceFlowBody auth mkdirErr writeErr s).1 =
          [FlowEvent.saveCall true, FlowEvent.send r, FlowEvent.closeChan]) ∧
    ((mkdirErr ≠ none ∨ writeErr ≠ none) → r.error ≠ none) := by
  rcases auth with e | ⟨td, blob⟩
  · simp only [deviceFlowBody, List.mem_cons, List.not_mem_nil, or_false] at hmem
    rcases hmem with hmem | hmem
    · cases hmem
      constructor
      · intro h; simp at h
      · intro _; simp
    · cases hmem
  · cases mkdirErr with
    | some e =>
      simp only [deviceFlowBody, save, saveToFile, List.mem_cons,
        List.not_mem_nil, or_false] at hmem
      rcases hmem with hmem | hmem | hmem
      · cases hmem
      · cases hmem
        constructor
        · intro h; simp at h
        · intro _; simp
      · cases hmem
    | none =>
      cases writeErr with
      | some e =>
        simp only [deviceFlowBody, save, saveToFile, List.mem_cons,
          List.not_mem_nil, or_false] at hmem
        rcases hmem with hmem | hmem | hmem
        · cases hmem
        · cases hmem
          constructor
          · intro h; simp at h
          · intro _; simp
        · cases hmem
      | none =>
        simp only [deviceFlowBody, save, saveToFile, List.mem_cons,
          List.not_mem_nil, or_false] at hmem
        rcases hmem with hmem | hmem | hmem
        · cases hmem
        · cases hmem
          constructor
          · intro _
            exact ⟨td, blob, (s.file.map Prod.snd).getD filePermission,
              rfl, rfl, rfl, rfl, rfl, rfl⟩
          · intro hcon
            rcases hcon with hc | hc <;> exact absurd rfl hc
        · cases hmem

/-- C1 witness: a concrete successful acquisition with succeeding save;
the success result is in the trace, and the trace shows the save
preceding the send with the blob persisted. -/
theorem deviceFlow_persist_before_success_witness :
    ∃ td blob p,
      (Except.ok (TokenData.mk "tok" "u@v" 9, [Account.mk "u@v"]) :
          Except String (TokenData × List Account)) = .ok (td, blob) ∧
      (none : Option String) = none ∧ (none : Option String) = none ∧
      (deviceFlowBody (.ok (TokenData.mk "tok" "u@v" 9, [Account.mk "u@v"]))
        none none (SysState.mk [] [] none none)).2.cacheData = blob ∧
      (deviceFlowBody (.ok (TokenData.mk "tok" "u@v" 9, [Account.mk "u@v"]))
        none none (SysState.mk [] [] none none)).2.file = some (blob, p) ∧
      (deviceFlowBody (.ok (TokenData.mk "tok" "u@v" 9, [Account.mk "u@v"]))
        none none (SysState.mk [] [] none none)).1 =
        [FlowEvent.saveCall true,
         FlowEvent.send (AuthResult.mk "tok" "u@v" 9 none),
         FlowEvent.closeChan] :=
  (deviceFlow_persist_before_success
    (.ok (TokenData.mk "tok" "u@v" 9, [Account.mk "u@v"])) none none
    (SysState.mk [] [] none none) (AuthResult.mk "tok" "u@v" 9 none)
    (by decide)).1 rfl

/-- C4.  Every spawned background completion of StartDeviceCodeFlow
sends exactly one AuthResult on the completion channel and then closes
it: on every trace, exactly one send occurs, the deferred close is the
last event, and the close occurs exactly once. -/
theorem deviceFlow_single_delivery
    (auth : Except String (TokenData × List Account))
    (mkdirErr writeErr : Option String) (s : SysState) :
    (deviceFlowBody auth mkdirErr writeErr s).1.countP FlowEvent.isSend = 1 ∧
    (deviceFlowBody auth mkdirErr writeErr s).1.getLast? =
      some FlowEvent.closeChan ∧
    (deviceFlowBody auth mkdirErr writeErr s).1.count FlowEvent.closeChan
      = 1 := by
  rcases auth with e | ⟨td, blob⟩ <;> cases mkdirErr <;> cases writeErr <;>
    simp [deviceFlowBody, save, saveToFile, List.countP_cons, List.count_cons,
      FlowEvent.isSend]

/-- C7 counterexample.  GetStatus is not unconditionally non-mutating:
when the probed account's silent acquisition refreshes the token, the
external library writes the refreshed blob through the cache Export
hook, changing both the in-memory blob and the backing file.  At this
concrete input (one cached account, empty filter, a silent call that
refreshes) the state after GetStatus differs from the state before. -/
theorem getStatus_mutates_on_refresh :
    ¬ ((getStatus none
        (fun _ => SilentOutcome.refreshed "tok2" "a@b" 99 [Account.mk "a@b"])
        none none ""
        (SysState.mk [Account.mk "a@b"] [] none none)).2 =
      SysState.mk [Account.mk "a@b"] [] none none) := by
  decide

/-- C7 (amended).  GetStatus performs no cache mutation of its own: for
every account filter — including the empty filter, which probes the
first cached account in enumeration order — whenever the silent
acquisition does not write the cache through the Export hook (it fails,
or serves the still-valid cached token), the token cache blob, both in
memory and on disk, is left unchanged; the probe reports not-logged-in
when no account matches, logged-in-expired when the silent call fails,
and logged-in with expiry otherwise. -/
theorem getStatus_frame (sil : Account → SilentOutcome)
    (mkdirErr writeErr : Option String) (email : String) (s : SysState)
    (hnw : ∀ a, (sil a).writesCache = false) :
    (getStatus none sil mkdirErr writeErr email s).2 = s ∧
    (∀ a rest, s.accounts = a :: rest →
      getStatus none sil mkdirErr writeErr "" s =
        (.ok (statusOfOutcome a (sil a)), s)) ∧
    (s.accounts = [] →
      getStatus none sil mkdirErr writeErr email s =
        (.ok (AuthStatus.mk false "" false 0), s)) ∧
    (∀ a e, sil a = .fail e →
      statusOfOutcome a (sil a) =
        AuthStatus.mk true a.preferredUsername true 0) ∧
    (∀ a tok un exp, sil a = .cachedHit tok un exp →
      statusOfOutcome a (sil a) = AuthStatus.mk true un false exp) := by
  refine ⟨?_, ?_, ?_, ?_, ?_⟩
  · simp only [getStatus]
    cases hacc : s.accounts with
    | nil => rfl
    | cons b t =>
      simp only [List.isEmpty_cons, Bool.false_eq_true, if_false]
      rcases hfind : List.find?
          (fun a => email == "" || a.preferredUsername == email) (b :: t) with
        _ | a
      · rw [hfind]
      · rw [hfind]
        have hw := hnw a
        cases hsil : sil a with
        | fail e => simp [hsil]
        | cachedHit tok un exp => simp [hsil]
        | refreshed tok un exp blob =>
          rw [hsil] at hw
          simp [SilentOutcome.writesCache] at hw
  · intro a rest hacc
    have hfind : List.find?
        (fun x => ("" == "" || x.preferredUsername == "")) (a :: rest) =
        some a := by
      rw [List.find?_cons_of_pos]
      rfl
    simp only [getStatus, hacc, List.isEmpty_cons, Bool.false_eq_true,
      if_false]
    rw [hfind]
    have hw := hnw a
    cases hsil : sil a with
    | fail e => simp [hsil]
    | cachedHit tok un exp => simp [hsil]
    | refreshed tok un exp blob =>
      rw [hsil] at hw
      simp [SilentOutcome.writesCache] at hw
  · intro hacc
    simp [getStatus, hacc]
  · intro a e hsil; rw [hsil]; rfl
  · intro a tok un exp hsil; rw [hsil]; rfl

/-- C7 witness for the amended claim: a concrete store where the silent
call fails; GetStatus leaves the state unchanged and reports the first
account as logged-in-expired. -/
theorem getStatus_frame_witness :
    (getStatus none (fun _ => SilentOutcome.fail "expired") none none ""
      (SysState.mk [Account.mk "a@b"] [Account.mk "a@b"] (some 448)
        (some ([Account.mk "a@b"], 384)))).2 =
      SysState.mk [Account.mk "a@b"] [Account.mk "a@b"] (some 448)
        (some ([Account.mk "a@b"], 384)) ∧
    getStatus none (fun _ => SilentOutcome.fail "expired") none none ""
      (SysState.mk [Account.mk "a@b"] [Account.mk "a@b"] (some 448)
        (some ([Account.mk "a@b"], 384))) =
      (.ok (statusOfOutcome (Account.mk "a@b")
          ((fun _ => SilentOutcome.fail "expired") (Account.mk "a@b"))),
       SysState.mk [Account.mk "a@b"] [Account.mk "a@b"] (some 448)
        (some ([Account.mk "a@b"], 384))) :=
  ⟨(getStatus_frame (fun _ => SilentOutcome.fail "expired") none none ""
      (SysState.mk [Account.mk "a@b"] [Account.mk "a@b"] (some 448)
        (some ([Account.mk "a@b"], 384))) (fun _ => rfl)).1,
   (getStatus_frame (fun _ => SilentOutcome.fail "expired") none none ""
      (SysState.mk [Account.mk "a@b"] [Account.mk "a@b"] (some 448)
        (some ([Account.mk "a@b"], 384))) (fun _ => rfl)).2.1
     (Account.mk "a@b") [] rfl⟩

end O365

